import Mathlib

/-!
Verification of the pyspex Level-1 product writer (`src/pyspex/lv1_io.py`) and
the CCSDS-to-L1A driver script (`scripts/spx1_ccsds2l1a.py`).

The Python classes `Lv1io` / `L1Aio` are shallowly embedded as a state machine:
the netCDF file is a pure value (`NcFile`), a product instance is `Lv1State`,
and each method becomes a function returning the successor state together with
an optional raised error.  Python exceptions are modelled by `LvErr`; a method
that raises mid-way returns the partially mutated state it leaves behind.
Floats are modelled as exact rationals (for the product state) or reals (for
the temperature calibration, which uses a logarithm).
-/

/-- Errors raised by the Level-1 writer.  `keyError` is Python's `KeyError`
(or the netCDF "not present" `IndexError`, which carries the same information);
`closedProduct` stands for the `AttributeError`/`TypeError` Python raises when
a method dereferences the `None` file handle after `close()` — the error the
spec's taxonomy names `ClosedProductError`. -/
inductive LvErr where
  | closedProduct
  | keyError (key : String)
  deriving DecidableEq, Repr

/-- Rows of a netCDF variable; the payload of one slice along the first
dimension is abstracted to a single rational (the claims only inspect the
time variable, whose rows are scalars, and row counts). -/
abbrev Row := ℚ

/-- Association-list lookup, modelling Python `dict` access (`d[k]`). -/
def alistGet? {α : Type} : List (String × α) → String → Option α
  | [], _ => none
  | kv :: rest, k => if kv.1 == k then some kv.2 else alistGet? rest k

/-- Association-list update of an existing key, modelling `d[k] = v` on a key
already present (insertion order is preserved, as for Python dicts). -/
def alistSet {α : Type} : List (String × α) → String → α → List (String × α)
  | [], _, _ => []
  | kv :: rest, k, v =>
      if kv.1 == k then (k, v) :: alistSet rest k v else kv :: alistSet rest k v

/-- Update-or-append, modelling `d[k] = v` / `setncattr` on a possibly new key. -/
def alistUpsert {α : Type} (l : List (String × α)) (k : String) (v : α) :
    List (String × α) :=
  if (alistGet? l k).isSome then alistSet l k v else l ++ [(k, v)]

/-! ## The netCDF file model -/

/-- Character-list version of Python `str.startswith`. -/
def listLead : List Char → List Char → Bool
  | [], _ => true
  | _ :: _, [] => false
  | a :: as, b :: bs => a == b && listLead as bs

/-- `strStarts p s` models Python `s.startswith(p)`. -/
def strStarts (p s : String) : Bool := listLead p.data s.data

/-- `strEnds p s` models `Path(s).suffix == p` for a one-dot name
(used only for the `'.H'` header-file skip in the driver script). -/
def strEnds (p s : String) : Bool := listLead p.data.reverse s.data.reverse

/-- A netCDF dimension is either fixed-size or unlimited (growable). -/
inductive DimSpec where
  | fixed (n : ℕ)
  | unlimited
  deriving DecidableEq, Repr

/-- A netCDF variable: its dimension names (in order) and the rows currently
written along the first dimension.  A dimensionless (scalar) variable has
`dims = []` and at most one row. -/
structure NcVar where
  dims : List String
  content : List Row
  deriving DecidableEq, Repr

/-- The on-disk netCDF file: dimensions, variables (keyed by their full
`/group/name` path, as `lv1_io.py` addresses them), declared group paths,
global attributes, and per-variable attributes.  Attribute payloads are
abstracted to integers; for the `time_coverage_*` attributes the stored
integer is the millisecond offset encoded by the ISO-8601 string that the
Python code writes (the rendering is injective, so equality of attributes
coincides with equality of the strings). -/
structure NcFile where
  dims : List (String × DimSpec)
  vars : List (String × NcVar)
  groups : List String
  attrs : List (String × ℤ)
  varAttrs : List (String × String × ℤ)
  deriving DecidableEq, Repr

/-- Size of a dimension (`Lv1io.get_dim`): `none` models the `KeyError` for an
undeclared dimension; an unlimited dimension's current size is the maximal
extent written to any variable having it as first dimension, as in netCDF. -/
def NcFile.dimSize? (f : NcFile) (d : String) : Option ℕ :=
  match alistGet? f.dims d with
  | none => none
  | some (.fixed n) => some n
  | some .unlimited =>
      some ((f.vars.filter (fun kv => kv.2.dims.head? == some d)).foldl
        (fun m kv => max m kv.2.content.length) 0)

/-- `get_dim` with the 0 default; callers in `close` have already checked the
dimension exists, so the default is never observed there. -/
def NcFile.dimSzD (f : NcFile) (d : String) : ℕ := (f.dimSize? d).getD 0

/-- Whether `d` is an unlimited dimension of the file (`dims[0].isunlimited()`). -/
def NcFile.isUnlimitedDim (f : NcFile) (d : String) : Bool :=
  match alistGet? f.dims d with
  | some .unlimited => true
  | _ => false

/-- netCDF default fill value for doubles (9.969209968386869e+36): reading an
index of an unlimited-dimension variable beyond what was written yields fill. -/
def fillRow : Row := 9969209968386869 * 10 ^ 21

/-- Read row `i` of a variable (`dset[i]`); beyond the written content the
storage layer supplies the fill value. -/
def NcVar.readRow (v : NcVar) (i : ℕ) : Row := v.content.getD i fillRow

/-- Replace the variable stored at `name` (the in-place effect of a netCDF
slice assignment on `self.fid[name]`). -/
def fileWithVar (f : NcFile) (name : String) (v : NcVar) : NcFile :=
  { f with vars := alistSet f.vars name v }

/-! ## The product state (class `Lv1io` / `L1Aio`) -/

/-- A Level-1 product instance: the on-disk file (which persists after close),
whether the handle `self.fid` is still open (`fid is not None`), and the
stored-length table `self.dset_stored`.  In the Python source `dset_stored`
is a mutable *class* attribute: `__init__` never rebinds it, and methods
mutate the shared dict in place, so the table a new instance starts from is
whatever the class-level dict currently holds (see `l1aNew`). -/
structure Lv1State where
  file : NcFile
  isOpen : Bool
  dset_stored : List (String × ℕ)
  deriving DecidableEq, Repr

/-- The initial value of the class attribute `L1Aio.dset_stored`
(lv1_io.py lines 325-342).  Note `'/engineering_data/DemHK_telemetry'` is
commented out in the source and therefore absent. -/
def l1aDsetStoredInit : List (String × ℕ) :=
  [("/science_data/detector_images", 0),
   ("/science_data/detector_telemetry", 0),
   ("/image_attributes/binning_table", 0),
   ("/image_attributes/digital_offset", 0),
   ("/image_attributes/nr_coadditions", 0),
   ("/image_attributes/exposure_time", 0),
   ("/image_attributes/icu_time_sec", 0),
   ("/image_attributes/icu_time_subsec", 0),
   ("/image_attributes/image_time", 0),
   ("/image_attributes/image_ID", 0),
   ("/engineering_data/NomHK_telemetry", 0),
   ("/engineering_data/temp_detector", 0),
   ("/engineering_data/temp_housing", 0),
   ("/engineering_data/temp_radiator", 0),
   ("/engineering_data/HK_tlm_time", 0)]

/-- `L1Aio.__init__` with `append=False`: the file is freshly created by
`init_l1a` (that schema builder lives in `pyspex/lib/l1a_def.py`, which is not
part of the sources; the created file is taken as a parameter), the handle is
open, and `self.dset_stored` resolves to the class-level table, which
`__init__` does not reset. -/
def l1aNew (classTable : List (String × ℕ)) (createdFile : NcFile) : Lv1State :=
  { file := createdFile, isOpen := true, dset_stored := classTable }

/-- The value written by one `set_dset` call: a numpy scalar
(`value.shape == ()`) or an array of rows along the first dimension. -/
inductive NpValue where
  | scalar (v : Row)
  | array (rows : List Row)
  deriving DecidableEq, Repr

/-- Rows a value occupies when written (`1 if value.shape == () else
value.shape[0]`, lv1_io.py line 276). -/
def rowCount : NpValue → ℕ
  | .scalar _ => 1
  | .array rows => rows.length

/-- The rows a value contributes to the variable's content. -/
def rowsOf : NpValue → List Row
  | .scalar v => [v]
  | .array rows => rows

/-- `self.fid[name][ibgn:, ...] = value`: overwrite `rows` starting at `b`,
extending the unlimited dimension as needed and keeping any rows beyond. -/
def spliceAt (content : List Row) (b : ℕ) (rows : List Row) : List Row :=
  content.take b ++ rows ++ content.drop (b + rows.length)

/-- The final statement of `set_dset`: `self.dset_stored[name] += k`, which
raises `KeyError` when `name` is not a key of the table — after the netCDF
write has already happened.  The state passed in already carries the
mutated file. -/
def bumpStored (s : Lv1State) (name : String) (k : ℕ) : Lv1State × Option LvErr :=
  match alistGet? s.dset_stored name with
  | none => (s, some (.keyError name))
  | some n => ({ s with dset_stored := alistSet s.dset_stored name (n + k) }, none)

/-- `Lv1io.set_dset` (lv1_io.py lines 243-276).  With the handle closed
(`self.fid is None`) the very first dereference raises, before any state
change.  For an unlimited first dimension and the default `ibgn=-1`, the
start index is looked up in `dset_stored` *before* the write, so a missing
key raises there with the file untouched; in every other branch the file is
written first and the `+=` on the table runs (and possibly raises) last. -/
def set_dset (s : Lv1State) (name : String) (value : NpValue) (ibgn : ℤ) :
    Lv1State × Option LvErr :=
  if s.isOpen = false then (s, some .closedProduct) else
  match alistGet? s.file.vars name with
  | none => (s, some (.keyError name))
  | some v =>
    match v.dims.head? with
    | none =>
        let f2 := fileWithVar s.file name { v with content := rowsOf value }
        bumpStored { s with file := f2 } name (rowCount value)
    | some d0 =>
        if s.file.isUnlimitedDim d0 then
          match (if ibgn < 0 then alistGet? s.dset_stored name
                 else some ibgn.toNat) with
          | none => (s, some (.keyError name))
          | some b =>
              let f2 := fileWithVar s.file name
                { v with content := spliceAt v.content b (rowsOf value) }
              bumpStored { s with file := f2 } name (rowCount value)
        else
          let f2 := fileWithVar s.file name { v with content := rowsOf value }
          bumpStored { s with file := f2 } name (rowCount value)

/-- Whether an attribute target path names a group or variable of the file
(the membership test of `Lv1io.set_attr`). -/
def pathKnown (f : NcFile) (ds : String) : Bool :=
  (alistGet? f.vars ds).isSome || f.groups.contains ds

/-- `Lv1io.set_attr` (lv1_io.py lines 181-216): global attribute when no
target is given, otherwise attached to the named group/variable, with a
`KeyError` for an unknown target.  On a closed product the `self.fid`
dereference raises before anything is written. -/
def set_attr (s : Lv1State) (name : String) (value : ℤ) (dsName : Option String) :
    Lv1State × Option LvErr :=
  if s.isOpen = false then (s, some .closedProduct) else
  match dsName with
  | none =>
      ({ s with file := { s.file with attrs := alistUpsert s.file.attrs name value } },
        none)
  | some ds =>
      if pathKnown s.file ds then
        ({ s with file := { s.file with varAttrs := s.file.varAttrs ++ [(ds, name, value)] } },
          none)
      else (s, some (.keyError ds))

/-! ## Names used by the L1A writer -/

def scienceGrp : String := "/science_data"

def imgGrp : String := "/image_attributes"

def engGrp : String := "/engineering_data"

def imageTimePath : String := "/image_attributes/image_time"

def demhkPath : String := "/engineering_data/DemHK_telemetry"

def nomhkPath : String := "/engineering_data/NomHK_telemetry"

def tempDetectorPath : String := "/engineering_data/temp_detector"

def tempHousingPath : String := "/engineering_data/temp_housing"

def tempRadiatorPath : String := "/engineering_data/temp_radiator"

def numImagesDim : String := "number_of_images"

def hkDim : String := "hk_packets"

def covStartName : String := "time_coverage_start"

def covEndName : String := "time_coverage_end"

/-! ## Time-coverage formatting

`L1Aio.close` renders `datetime(year, month, day, tzinfo=utc) +
timedelta(seconds=float(dset[i]))` with `isoformat(timespec='milliseconds')`.
The base date is common to both attributes; the ISO string is determined by
(and determines) the millisecond offset from that date, which is what the
model stores.  `isoformat` truncates microseconds to milliseconds
(`microsecond // 1000`); floats are modelled as exact rationals. -/

/-- Millisecond offset rendered by `L1Aio.close` for a seconds value `q`. -/
def l1aCoverageMs (q : ℚ) : ℤ := ⌊1000 * q⌋

/-- Python `int(q)`: truncation toward zero. -/
def pyInt (q : ℚ) : ℤ := if 0 ≤ q then ⌊q⌋ else ⌈q⌉

/-- Python `q % 1` for a float `q`: the fractional part, in `[0, 1)`. -/
def pyMod1 (q : ℚ) : ℚ := q - (⌊q⌋ : ℚ)

/-- Microsecond offset accumulated by `L1Bio.close` (lv1_io.py lines 579-587,
identically `L1Cio.close`):
`timedelta(seconds=int(secnd)) + timedelta(microseconds=int(secnd % 1))`. -/
def l1bCoverageUs (secnd : ℚ) : ℤ := 1000000 * pyInt secnd + pyInt (pyMod1 secnd)

/-- Millisecond offset in the ISO-8601 string `L1Bio.close` writes
(`isoformat(timespec='milliseconds')` truncates microseconds with `//`). -/
def l1bCoverageMs (secnd : ℚ) : ℤ := (l1bCoverageUs secnd).fdiv 1000

/-- The millisecond offset of the *entry itself* rendered as ISO-8601 with
millisecond precision — what the spec says both closers write. -/
def entryMs (q : ℚ) : ℤ := ⌊1000 * q⌋

/-! ## `L1Aio.check_stored` and `L1Aio.close` -/

/-- One pass of `check_stored` over a group of table entries: the entries a
warning line is printed for (`res != dim_sz`, additionally `res > 0` when
`allow_empty`), in table order.  Each returned pair is one warning line
(variable name and its wrong element count). -/
def offendersOf (dimSz : ℕ) (allowEmpty : Bool) (entries : List (String × ℕ)) :
    List (String × ℕ) :=
  entries.filter (fun kv =>
    if allowEmpty then decide (0 < kv.2) && decide (kv.2 ≠ dimSz)
    else decide (kv.2 ≠ dimSz))

/-- `L1Aio.check_stored` (lv1_io.py lines 376-415): image-group variables are
checked against `number_of_images`, engineering-group variables against
`hk_packets`; mismatches are printed as warnings, never raised. -/
def l1aCheckStored (s : Lv1State) (allowEmpty : Bool) : List (String × ℕ) :=
  offendersOf (s.file.dimSzD numImagesDim) allowEmpty
      (s.dset_stored.filter (fun kv =>
        strStarts scienceGrp kv.1 || strStarts imgGrp kv.1))
    ++ offendersOf (s.file.dimSzD hkDim) allowEmpty
      (s.dset_stored.filter (fun kv => strStarts engGrp kv.1))

/-- `L1Aio.close` (lv1_io.py lines 344-373).  No-op when already closed; an
empty product (`number_of_images` size 0) is closed without attributes; else
`check_stored(allow_empty=True)` collects warnings, the `time_coverage_*`
attributes are written from the first and last `image_time` entries, and the
handle is released.  The returned list is the warning lines printed. -/
def l1aClose (s : Lv1State) : Lv1State × List (String × ℕ) × Option LvErr :=
  if s.isOpen = false then (s, [], none) else
  match s.file.dimSize? numImagesDim with
  | none => (s, [], some (.keyError numImagesDim))
  | some nImg =>
    if nImg = 0 then ({ s with isOpen := false }, [], none) else
    match s.file.dimSize? hkDim with
    | none => (s, [], some (.keyError hkDim))
    | some _ =>
      match alistGet? s.file.vars imageTimePath with
      | none => (s, [], some (.keyError imageTimePath))
      | some tv =>
        let warns := l1aCheckStored s true
        let a1 := alistUpsert s.file.attrs covStartName (l1aCoverageMs (tv.readRow 0))
        let a2 := alistUpsert a1 covEndName (l1aCoverageMs (tv.readRow (nImg - 1)))
        ({ s with file := { s.file with attrs := a2 }, isOpen := false }, warns, none)

/-- `L1Aio.fill_demhk` (lv1_io.py lines 492-510): empty input is a no-op,
otherwise the telemetry is handed to `set_dset` for
`/engineering_data/DemHK_telemetry` with the default start index. -/
def fill_demhk (s : Lv1State) (demhk : List Row) : Lv1State × Option LvErr :=
  if demhk.length == 0 then (s, none)
  else set_dset s demhkPath (.array demhk) (-1)

/-- The file contents after a non-empty `L1Aio.close`: both coverage
attributes written from the first and last `image_time` entries. -/
def l1aClosedFile (f : NcFile) (tv : NcVar) (nImg : ℕ) : NcFile :=
  let a1 := alistUpsert f.attrs covStartName (l1aCoverageMs (tv.readRow 0))
  let a2 := alistUpsert a1 covEndName (l1aCoverageMs (tv.readRow (nImg - 1)))
  { f with attrs := a2 }

/-! ## Temperature calibration (`frac_poly`, lv1_io.py lines 33-55)

Floats are modelled as real numbers; `np.log` is the natural logarithm,
applied elementwise. -/

/-- The fixed default coefficients selected when `coefs is None`. -/
noncomputable def fracPolyDefaultCoefs : ℝ × ℝ × ℝ × ℝ × ℝ :=
  (273.15 + 21.19, 6.97828e7, -3.53275e-25, 7.79625e-31, -4.6505e-32)

/-- `frac_poly(xx_in, coefs)` for one sensor count. -/
noncomputable def fracPoly (xdata : ℝ) (coefs : Option (ℝ × ℝ × ℝ × ℝ × ℝ)) : ℝ :=
  let c := coefs.getD fracPolyDefaultCoefs
  c.1 + c.2.1 / xdata + c.2.2.1 * xdata ^ 4
    + (c.2.2.2.1 + c.2.2.2.2 * Real.log xdata) * xdata ^ 5

/-- `frac_poly` on a raw (integer) sensor count with the default coefficients,
as `fill_nomhk` invokes it. -/
noncomputable def fracPolyD (n : ℕ) : ℝ := fracPoly (n : ℝ) none

/-- The per-channel branch of `L1Aio.fill_nomhk` (lv1_io.py lines 471-490):
`np.all(raw == 0)` selects the constant fallback array for the *whole batch*;
otherwise every reading of the batch goes through `conv`. -/
def tempChannelValues {α : Type} (conv : ℕ → α) (fallback : α) (raw : List ℕ) :
    List α :=
  if raw.all (fun x => x == 0) then List.replicate raw.length fallback
  else raw.map conv

/-- Values written to `/engineering_data/temp_detector` (fallback 273 K). -/
noncomputable def nomhkTempDetector (raw : List ℕ) : List ℝ :=
  tempChannelValues fracPolyD 273 raw

/-- Values written to `/engineering_data/temp_housing` (fallback 293 K). -/
noncomputable def nomhkTempHousing (raw : List ℕ) : List ℝ :=
  tempChannelValues fracPolyD 293 raw

/-- Values written to `/engineering_data/temp_radiator` (fallback 294 K). -/
noncomputable def nomhkTempRadiator (raw : List ℕ) : List ℝ :=
  tempChannelValues fracPolyD 294 raw

/-! ## The driver script (`scripts/spx1_ccsds2l1a.py`, `main`, lines 53-63)

Packets are opaque (naturals); reading a file is an abstract function from
file name to its packet list.  The loop iterates `sorted(args.file_list)` and
skips names whose suffix is `'.H'`. -/

def dotH : String := ".H"

/-- Files the loop actually reads (non-header files). -/
def keepFile (f : String) : Bool := !(strEnds dotH f)

/-- Lexicographic code-point comparison of character lists — the order Python
uses to compare strings. -/
def charListLe : List Char → List Char → Bool
  | [], _ => true
  | _ :: _, [] => false
  | a :: as, b :: bs =>
      if a < b then true else if b < a then false else charListLe as bs

/-- `a <= b` on file names, as Python's `sorted` compares them. -/
def strLeB (a b : String) : Bool := charListLe a.data b.data

/-- The sorting relation of `sorted(args.file_list)` as a proposition. -/
def fileOrd (a b : String) : Prop := strLeB a b = true

instance fileOrdDec : DecidableRel fileOrd := fun _ _ => instDecidableEqBool _ _

/-- `sorted(args.file_list)`: ascending lexicographic order on file names. -/
def sortedFileList (fl : List String) : List String :=
  List.insertionSort fileOrd fl

/-- The concatenated packet list `main` builds before grouping. -/
def mainPacketList (read : String → List ℕ) (fl : List String) : List ℕ :=
  ((sortedFileList fl).filter keepFile).flatMap read

/-! ## Concrete products used to instantiate the theorems -/

def c1Name : String := "t"

def c1Dim : String := "d"

/-- A one-variable product file with an unlimited first dimension. -/
def c1File : NcFile :=
  { dims := [(c1Dim, DimSpec.unlimited)],
    vars := [(c1Name, { dims := [c1Dim], content := [] })],
    groups := [], attrs := [], varAttrs := [] }

def c1State : Lv1State :=
  { file := c1File, isOpen := true, dset_stored := [(c1Name, 0)] }

def c1Var : NcVar := { dims := [c1Dim], content := [] }

/-- A product whose handle has been released (`self.fid = None`). -/
def c5State : Lv1State :=
  { file := c1File, isOpen := false, dset_stored := l1aDsetStoredInit }

def c5Name : String := "x"

/-- An inconsistent product: `number_of_images` has size 2 but only one row of
`detector_images` was recorded, and `image_time` carries 2 rows. -/
def c4File : NcFile :=
  { dims := [(numImagesDim, DimSpec.fixed 2), (hkDim, DimSpec.fixed 0)],
    vars := [(imageTimePath, { dims := [numImagesDim], content := [0, 1] })],
    groups := [], attrs := [], varAttrs := [] }

def c4BadKey : String := "/science_data/detector_images"

def c4State : Lv1State :=
  { file := c4File, isOpen := true,
    dset_stored := [(c4BadKey, 1), (imageTimePath, 2)] }

/-- A freshly created product with zero `number_of_images`. -/
def c6File : NcFile :=
  { dims := [(numImagesDim, DimSpec.fixed 0), (hkDim, DimSpec.fixed 0)],
    vars := [(imageTimePath, { dims := [numImagesDim], content := [] })],
    groups := [], attrs := [], varAttrs := [] }

def c6State : Lv1State :=
  { file := c6File, isOpen := true, dset_stored := l1aDsetStoredInit }

/-- The file of a fresh L1A product as far as the shared-table scenario needs
it: an unlimited `number_of_images`/`hk_packets` pair and the `image_time`
variable (the full schema built by `pyspex/lib/l1a_def.py` is not in the
sources; the spec declares these dimensions unlimited). -/
def c8File : NcFile :=
  { dims := [(numImagesDim, DimSpec.unlimited), (hkDim, DimSpec.unlimited)],
    vars := [(imageTimePath, { dims := [numImagesDim], content := [] })],
    groups := [], attrs := [], varAttrs := [] }

/-- First product instance of the process: the class table still holds its
initial zeros. -/
def c8First : Lv1State := l1aNew l1aDsetStoredInit c8File

/-- Second product instance, created (append=False) after the first one wrote
one `image_time` row and was closed: `__init__` leaves `self.dset_stored`
bound to the class-level dict the first instance mutated in place. -/
def c8Second : Lv1State :=
  l1aNew ((l1aClose (set_dset c8First imageTimePath (.scalar 0) (-1)).1).1).dset_stored
    c8File

/-- Modelled from the spec: the `DemHK_telemetry` variable as `init_l1a`
declares it (`pyspex/lib/l1a_def.py` is not among the sources) — first
dimension `hk_packets`, which the spec lists as unlimited. -/
def c10File : NcFile :=
  { dims := [(hkDim, DimSpec.unlimited)],
    vars := [(demhkPath, { dims := [hkDim], content := [] })],
    groups := [], attrs := [], varAttrs := [] }

def c10State : Lv1State :=
  { file := c10File, isOpen := true, dset_stored := l1aDsetStoredInit }

def c10Var : NcVar := { dims := [hkDim], content := [] }

def c9FileA : String := "pa"

def c9FileB : String := "pb"

/-- A reader giving distinct packets to the two files. -/
def c9Read (f : String) : List ℕ := if f == c9FileA then [0] else [1]

/-- `N` single-row `set_dset` calls with the default (append) start index. -/
def writeOneByOne (s : Lv1State) (name : String) (rows : List Row) : Lv1State :=
  rows.foldl (fun st r => (set_dset st name (.array [r]) (-1)).1) s

/-! ## Helper lemmas about association lists -/

theorem alistGet?_alistSet_self {α : Type} (l : List (String × α)) (k : String)
    (v w : α) (h : alistGet? l k = some w) :
    alistGet? (alistSet l k v) k = some v := by
  induction l with
  | nil => simp [alistGet?] at h
  | cons kv rest ih =>
    by_cases hk : kv.1 == k
    · simp [alistGet?, alistSet, hk]
    · simp only [alistGet?, alistSet, hk, if_false, Bool.false_eq_true] at h ⊢
      exact ih h

theorem alistGet?_alistSet_ne {α : Type} (l : List (String × α)) (k k' : String)
    (v : α) (h : k ≠ k') : alistGet? (alistSet l k' v) k = alistGet? l k := by
  induction l with
  | nil => simp [alistSet]
  | cons kv rest ih =>
    by_cases hk : kv.1 == k'
    · have hkk : ¬(k' == k) := by simpa using fun e => h e.symm
      have hkvk : ¬(kv.1 == k) := by
        have : kv.1 = k' := by simpa using hk
        simpa [this] using fun e => h e.symm
      simp [alistSet, alistGet?, hk, hkk, hkvk, ih]
    · simp only [alistSet, hk, if_false, Bool.false_eq_true]
      simp [alistGet?, ih]

theorem alistGet?_append_of_some {α : Type} (l m : List (String × α))
    (k : String) (v : α) (h : alistGet? l k = some v) :
    alistGet? (l ++ m) k = some v := by
  induction l with
  | nil => simp [alistGet?] at h
  | cons kv rest ih =>
    by_cases hk : kv.1 == k
    · simp only [alistGet?, hk, if_true] at h
      simp [alistGet?, hk, h]
    · simp only [alistGet?, hk, if_false, Bool.false_eq_true] at h
      simp only [List.cons_append, alistGet?, hk, if_false, Bool.false_eq_true]
      exact ih h

theorem alistGet?_append_of_none {α : Type} (l m : List (String × α))
    (k : String) (h : alistGet? l k = none) :
    alistGet? (l ++ m) k = alistGet? m k := by
  induction l with
  | nil => simp
  | cons kv rest ih =>
    by_cases hk : kv.1 == k
    · simp [alistGet?, hk] at h
    · simp only [alistGet?, hk, if_false, Bool.false_eq_true] at h
      simp only [List.cons_append, alistGet?, hk, if_false, Bool.false_eq_true]
      exact ih h

theorem alistGet?_alistUpsert_self {α : Type} (l : List (String × α))
    (k : String) (v : α) : alistGet? (alistUpsert l k v) k = some v := by
  unfold alistUpsert
  by_cases h : (alistGet? l k).isSome
  · obtain ⟨w, hw⟩ := Option.isSome_iff_exists.mp h
    simp [h, alistGet?_alistSet_self l k v w hw]
  · have hn : alistGet? l k = none := by
      cases hc : alistGet? l k with
      | none => rfl
      | some w => rw [hc] at h; simp at h
    simp only [h, if_false, Bool.false_eq_true, alistGet?_append_of_none l _ k hn]
    simp [alistGet?]

theorem isSome_alistGet?_alistUpsert {α : Type} (l : List (String × α))
    (k k' : String) (v : α) (h : (alistGet? l k).isSome) :
    (alistGet? (alistUpsert l k' v) k).isSome := by
  by_cases hkk : k = k'
  · subst hkk; rw [alistGet?_alistUpsert_self]; rfl
  · unfold alistUpsert
    obtain ⟨w, hw⟩ := Option.isSome_iff_exists.mp h
    by_cases h' : (alistGet? l k').isSome
    · simp only [h', if_true, alistGet?_alistSet_ne l k k' v hkk, hw]; rfl
    · simp only [h', if_false, Bool.false_eq_true,
        alistGet?_append_of_some l _ k w hw]; rfl

/-! ## Behaviour of `set_dset` on an unlimited-dimension variable -/

/-- A successful append-mode `set_dset` call: with the product open, the
variable present with an unlimited first dimension, and the name tracked in
the table, the rows are spliced in at the current stored length and the
counter is advanced by the row count. -/
theorem set_dset_unlimited_eq (s : Lv1State) (name : String) (value : NpValue)
    (v : NcVar) (d : String) (n0 : ℕ)
    (hO : s.isOpen = true)
    (hv : alistGet? s.file.vars name = some v)
    (hd : v.dims.head? = some d)
    (hu : s.file.isUnlimitedDim d = true)
    (hn : alistGet? s.dset_stored name = some n0) :
    set_dset s name value (-1) =
      ({ s with
          file := fileWithVar s.file name
            { v with content := spliceAt v.content n0 (rowsOf value) },
          dset_stored := alistSet s.dset_stored name (n0 + rowCount value) },
        none) := by
  have hneg : ((-1 : ℤ) < 0) := by norm_num
  simp only [set_dset, hO, hv, hd, hu, hn, Bool.true_eq_false, if_false,
    if_true, hneg, if_pos, bumpStored]

/-- Iterating single-row appends advances the stored-length counter by the
number of calls. -/
theorem writeOneByOne_counter (name : String) (rows : List Row) :
    ∀ (s : Lv1State) (v : NcVar) (d : String) (n0 : ℕ),
      s.isOpen = true →
      alistGet? s.file.vars name = some v →
      v.dims.head? = some d →
      s.file.isUnlimitedDim d = true →
      alistGet? s.dset_stored name = some n0 →
      alistGet? (writeOneByOne s name rows).dset_stored name
        = some (n0 + rows.length) := by
  induction rows with
  | nil =>
    intro s v d n0 _ _ _ _ hn
    simpa [writeOneByOne] using hn
  | cons r rest ih =>
    intro s v d n0 hO hv hd hu hn
    have hstep := set_dset_unlimited_eq s name (.array [r]) v d n0 hO hv hd hu hn
    have hfold : writeOneByOne s name (r :: rest) =
        writeOneByOne (set_dset s name (.array [r]) (-1)).1 name rest := rfl
    rw [hfold, hstep]
    have hres := ih
      { s with
          file := fileWithVar s.file name
            { v with content := spliceAt v.content n0 (rowsOf (.array [r])) },
          dset_stored := alistSet s.dset_stored name (n0 + rowCount (.array [r])) }
      { v with content := spliceAt v.content n0 (rowsOf (.array [r])) }
      d (n0 + 1) hO
      (by
        show alistGet? (alistSet s.file.vars name _) name = _
        exact alistGet?_alistSet_self s.file.vars name _ v hv)
      hd hu
      (by
        show alistGet? (alistSet s.dset_stored name _) name = _
        exact alistGet?_alistSet_self s.dset_stored name _ n0 hn)
    rw [hres]
    simp only [List.length_cons, Option.some_inj]
    omega

/-! ## Claim theorems -/

/-- C1: for an unlimited-first-dimension variable tracked in the stored-length
table, writing `N` rows in one `set_dset` call and writing them as `N`
single-row calls leave the same final stored-length counter, and every call
advances the counter by the number of rows written (`rowCount`, which is 1
for a scalar write); no call raises. -/
theorem C1_single_vs_iterated_append (s : Lv1State) (name : String)
    (rows : List Row) (value : NpValue) (v : NcVar) (d : String) (n0 : ℕ)
    (hO : s.isOpen = true)
    (hv : alistGet? s.file.vars name = some v)
    (hd : v.dims.head? = some d)
    (hu : s.file.isUnlimitedDim d = true)
    (hn : alistGet? s.dset_stored name = some n0) :
    (set_dset s name (.array rows) (-1)).2 = none ∧
    alistGet? (set_dset s name (.array rows) (-1)).1.dset_stored name
      = some (n0 + rows.length) ∧
    alistGet? (writeOneByOne s name rows).dset_stored name
      = some (n0 + rows.length) ∧
    (set_dset s name value (-1)).2 = none ∧
    alistGet? (set_dset s name value (-1)).1.dset_stored name
      = some (n0 + rowCount value) := by
  have h1 := set_dset_unlimited_eq s name (.array rows) v d n0 hO hv hd hu hn
  have h2 := set_dset_unlimited_eq s name value v d n0 hO hv hd hu hn
  refine ⟨by rw [h1], ?_, ?_, by rw [h2], ?_⟩
  · rw [h1]
    exact alistGet?_alistSet_self s.dset_stored name _ n0 hn
  · exact writeOneByOne_counter name rows s v d n0 hO hv hd hu hn
  · rw [h2]
    exact alistGet?_alistSet_self s.dset_stored name _ n0 hn

/-- Witness for C1 on a concrete product: three rows in one call, three
single-row calls, and a scalar write. -/
theorem C1_single_vs_iterated_append_witness :
    alistGet? (set_dset c1State c1Name (NpValue.array [1, 2, 3]) (-1)).1.dset_stored
        c1Name = some 3 ∧
    alistGet? (writeOneByOne c1State c1Name [1, 2, 3]).dset_stored c1Name = some 3 ∧
    alistGet? (set_dset c1State c1Name (NpValue.scalar 7) (-1)).1.dset_stored
        c1Name = some 1 := by
  have h := C1_single_vs_iterated_append c1State c1Name [1, 2, 3]
    (NpValue.scalar 7) c1Var c1Dim 0 rfl rfl rfl rfl rfl
  exact ⟨by simpa using h.2.1, by simpa using h.2.2.1, by simpa using h.2.2.2.2⟩

/-- C5: once the product is closed (`self.fid = None`), every `set_dset` and
`set_attr` call fails with the closed-product error and leaves the state
unchanged — no write succeeds. -/
theorem C5_writes_after_close_fail (s : Lv1State) (name : String)
    (value : NpValue) (ibgn : ℤ) (aname : String) (aval : ℤ)
    (dsName : Option String) (h : s.isOpen = false) :
    set_dset s name value ibgn = (s, some LvErr.closedProduct) ∧
    set_attr s aname aval dsName = (s, some LvErr.closedProduct) := by
  constructor
  · simp [set_dset, h]
  · simp [set_attr, h]

/-- Witness for C5 on a concrete closed product. -/
theorem C5_writes_after_close_fail_witness :
    set_dset c5State c5Name (NpValue.scalar 1) (-1)
        = (c5State, some LvErr.closedProduct) ∧
    set_attr c5State c5Name 4 none = (c5State, some LvErr.closedProduct) :=
  C5_writes_after_close_fail c5State c5Name (NpValue.scalar 1) (-1) c5Name 4
    none rfl

/-- C7: with no coefficients supplied, `frac_poly` evaluates the documented
fractional polynomial with the fixed default coefficients
`r0 = 273.15 + 21.19`, `r1 = 6.97828e+7`, `r2 = -3.53275e-25`,
`r3 = 7.79625e-31`, `r4 = -4.6505e-32`. -/
theorem C7_frac_poly_default_formula (x : ℝ) (_hx : 0 < x) :
    fracPoly x none =
      (273.15 + 21.19) + 6.97828e7 / x + (-3.53275e-25) * x ^ 4
        + (7.79625e-31 + (-4.6505e-32) * Real.log x) * x ^ 5 := by
  simp [fracPoly, fracPolyDefaultCoefs]

/-- Witness for C7 at the positive count 1. -/
theorem C7_frac_poly_default_formula_witness :
    fracPoly 1 none =
      (273.15 + 21.19) + 6.97828e7 / 1 + (-3.53275e-25) * 1 ^ 4
        + (7.79625e-31 + (-4.6505e-32) * Real.log 1) * 1 ^ 5 :=
  C7_frac_poly_default_formula 1 (by norm_num)

/-- C3 counterexample: in the mixed batch `[0, 1]` the zero detector reading
does *not* map to the 273 K fallback — `np.all(raw == 0)` is False, so the
whole batch, zeros included, is fed to `frac_poly`.  (In the Lean real-number
semantics `frac_poly(0)` collapses to `r0 = 294.34`; in numpy the `1/x` and
`log` terms make it a non-finite value.  Either way it is not 273.) -/
theorem C3_zero_reading_not_fallback :
    (nomhkTempDetector [0, 1]).head? = some (fracPolyD 0) ∧ fracPolyD 0 ≠ 273 := by
  constructor
  · simp [nomhkTempDetector, tempChannelValues]
  · have h0 : fracPolyD 0 = 273.15 + 21.19 := by
      simp [fracPolyD, fracPoly, fracPolyDefaultCoefs, Real.log_zero]
    rw [h0]
    norm_num

/-- C3 as amended: the fallback constants (detector 273 K, housing 293 K,
radiator 294 K) are applied to a batch only when *all* raw readings of that
channel's batch are zero; otherwise every reading of the batch — including
zeros — is converted through the polynomial. -/
theorem C3_batch_level_fallback (raw : List ℕ) :
    (raw.all (fun x => x == 0) = true →
      nomhkTempDetector raw = List.replicate raw.length 273 ∧
      nomhkTempHousing raw = List.replicate raw.length 293 ∧
      nomhkTempRadiator raw = List.replicate raw.length 294) ∧
    (raw.all (fun x => x == 0) = false →
      nomhkTempDetector raw = raw.map fracPolyD ∧
      nomhkTempHousing raw = raw.map fracPolyD ∧
      nomhkTempRadiator raw = raw.map fracPolyD) := by
  constructor <;> intro h <;>
    simp [nomhkTempDetector, nomhkTempHousing, nomhkTempRadiator,
      tempChannelValues, h]

/-- Witness for the amended C3: an all-zero batch takes the fallbacks, a mixed
batch goes through the polynomial. -/
theorem C3_batch_level_fallback_witness :
    nomhkTempDetector [0, 0] = List.replicate 2 273 ∧
    nomhkTempRadiator [0, 0] = List.replicate 2 294 ∧
    nomhkTempDetector [0, 1] = [0, 1].map fracPolyD := by
  have h1 := (C3_batch_level_fallback [0, 0]).1 rfl
  have h2 := (C3_batch_level_fallback [0, 1]).2 rfl
  exact ⟨h1.1, h1.2.2, h2.1⟩

/-- C2 evidence: at the L1B/L1C `image_time` entry 0.5 s the written coverage
attribute is the epoch + 0 ms, while the entry formatted at millisecond
precision is 500 ms — `int(secnd % 1)` in `L1Bio.close` is 0 for every
`secnd`, so the fractional seconds are silently dropped.  The L1A closer
(`l1aCoverageMs`) renders the same entry correctly. -/
theorem C2_l1b_drops_fraction :
    l1bCoverageMs (1 / 2) = 0 ∧ entryMs (1 / 2) = 500 ∧
    l1aCoverageMs (1 / 2) = 500 := by
  refine ⟨?_, ?_, ?_⟩
  · have h1 : pyInt (1 / 2 : ℚ) = 0 := by
      rw [pyInt, if_pos (by norm_num : (0 : ℚ) ≤ 1 / 2)]
      rw [show ⌊(1 / 2 : ℚ)⌋ = 0 from by
        rw [Int.floor_eq_zero_iff]; constructor <;> norm_num]
    have h2 : pyInt (pyMod1 (1 / 2 : ℚ)) = 0 := by
      have : pyMod1 (1 / 2 : ℚ) = 1 / 2 := by
        rw [pyMod1, show ⌊(1 / 2 : ℚ)⌋ = 0 from by
          rw [Int.floor_eq_zero_iff]; constructor <;> norm_num]
        norm_num
      rw [this, h1]
    rw [l1bCoverageMs, l1bCoverageUs, h1, h2]
    norm_num
  · rw [entryMs, show (1000 : ℚ) * (1 / 2) = ((500 : ℤ) : ℚ) by norm_num,
      Int.floor_intCast]
  · rw [l1aCoverageMs, show (1000 : ℚ) * (1 / 2) = ((500 : ℤ) : ℚ) by norm_num,
      Int.floor_intCast]

/-- The code-point order on character lists is total. -/
theorem charListLe_total : ∀ as bs : List Char,
    charListLe as bs = true ∨ charListLe bs as = true
  | [], _ => .inl rfl
  | _ :: _, [] => .inr rfl
  | a :: as, b :: bs => by
      rcases lt_trichotomy a b with h | h | h
      · left; simp [charListLe, h]
      · subst h
        rcases charListLe_total as bs with ih | ih
        · left; simp [charListLe, lt_irrefl, ih]
        · right; simp [charListLe, lt_irrefl, ih]
      · right; simp [charListLe, h]

/-- The code-point order on character lists is transitive. -/
theorem charListLe_trans : ∀ as bs cs : List Char,
    charListLe as bs = true → charListLe bs cs = true → charListLe as cs = true
  | [], _, _ => by intro _ _; rfl
  | _ :: _, [], _ => by intro h _; exact absurd h (by simp [charListLe])
  | _ :: _, _ :: _, [] => by intro _ h; exact absurd h (by simp [charListLe])
  | a :: as, b :: bs, c :: cs => by
      intro h1 h2
      rcases lt_trichotomy a b with hab | hab | hab
      · rcases lt_trichotomy b c with hbc | hbc | hbc
        · simp [charListLe, lt_trans hab hbc]
        · subst hbc; simp [charListLe, hab]
        · have hnb : ¬b < c := asymm hbc
          simp [charListLe, hnb, hbc] at h2
      · subst hab
        rcases lt_trichotomy a c with hac | hac | hac
        · simp [charListLe, hac]
        · subst hac
          simp only [charListLe, lt_irrefl, if_false] at h1 h2 ⊢
          exact charListLe_trans as bs cs h1 h2
        · have hnb : ¬a < c := asymm hac
          simp [charListLe, hnb, hac] at h2
      · have hna : ¬a < b := asymm hab
        simp [charListLe, hna, hab] at h1

/-- C9 counterexample: with the caller-supplied list `["pb", "pa"]` the driver
reads `"pa"` first — `main` iterates `sorted(args.file_list)`, so the packets
come out `[0, 1]`, not in the caller's order `[1, 0]`. -/
theorem C9_caller_order_not_kept :
    mainPacketList c9Read [c9FileB, c9FileA] = [0, 1] ∧
    List.flatMap [c9FileB, c9FileA] c9Read = [1, 0] := by
  constructor <;> decide

/-- C9 as amended: the packet sequences of the input files are read
independently and concatenated in ascending lexicographic file-name order
(with `'.H'` header files skipped), not in caller-supplied order; the reader
performs no re-sorting by timestamp, only this name sort. -/
theorem C9_lexicographic_file_order (read : String → List ℕ) (fl : List String) :
    mainPacketList read fl = ((sortedFileList fl).filter keepFile).flatMap read ∧
    List.Perm ((sortedFileList fl).filter keepFile) (fl.filter keepFile) ∧
    List.Sorted fileOrd ((sortedFileList fl).filter keepFile) := by
  refine ⟨rfl, ?_, ?_⟩
  · exact (List.perm_insertionSort fileOrd fl).filter keepFile
  · exact List.Pairwise.filter keepFile
      (@List.sorted_insertionSort String fileOrd fileOrdDec
        ⟨fun a b => charListLe_total a.data b.data⟩
        ⟨fun a b c => charListLe_trans a.data b.data c.data⟩ fl)

/-- C6: `close()` is a no-op on an already-closed product, closing twice
leaves the state of a single close, and closing an open product whose
`number_of_images` is still 0 only releases the handle — the file (and in
particular its attribute list) is untouched and nothing is raised. -/
theorem C6_close_noop_and_empty (s : Lv1State) :
    (s.isOpen = false → l1aClose s = (s, [], none)) ∧
    (l1aClose (l1aClose s).1).1 = (l1aClose s).1 ∧
    (s.isOpen = true → s.file.dimSize? numImagesDim = some 0 →
      l1aClose s = ({ s with isOpen := false }, [], none)) := by
  refine ⟨?_, ?_, ?_⟩
  · intro h; simp [l1aClose, h]
  · by_cases hO : s.isOpen = false
    · simp [l1aClose, hO]
    · have hO' : s.isOpen = true := by revert hO; cases s.isOpen <;> simp
      cases hN : s.file.dimSize? numImagesDim with
      | none => simp [l1aClose, hO', hN]
      | some n =>
        by_cases hn0 : n = 0
        · subst hn0; simp [l1aClose, hO', hN]
        · cases hH : s.file.dimSize? hkDim with
          | none => simp [l1aClose, hO', hN, hn0, hH]
          | some m =>
            cases hT : alistGet? s.file.vars imageTimePath with
            | none => simp [l1aClose, hO', hN, hn0, hH, hT]
            | some tv => simp [l1aClose, hO', hN, hn0, hH, hT]
  · intro h1 h2; simp [l1aClose, h1, h2]

/-- Witness for C6: closing the concrete empty product only flips the handle;
reclosing the result is a no-op. -/
theorem C6_close_noop_and_empty_witness :
    l1aClose c6State = ({ c6State with isOpen := false }, [], none) ∧
    l1aClose { c6State with isOpen := false }
      = ({ c6State with isOpen := false }, [], none) :=
  ⟨(C6_close_noop_and_empty c6State).2.2 rfl rfl,
   (C6_close_noop_and_empty { c6State with isOpen := false }).1 rfl⟩

/-- C4: closing a non-empty product with inconsistent stored-length counters
completes without raising — the handle is released, both `time_coverage_*`
attributes are written — and the warning list contains exactly one line per
offending variable: a tracked image-group variable with a nonzero count
different from `number_of_images`, or a tracked engineering-group variable
with a nonzero count different from `hk_packets` (zero counts are exempt
because `close` passes `allow_empty=True`). -/
theorem C4_close_mismatch_warns (s : Lv1State) (k : String) (c : ℕ)
    (nImg m : ℕ) (tv : NcVar)
    (hO : s.isOpen = true)
    (h1 : s.file.dimSize? numImagesDim = some nImg) (h2 : 0 < nImg)
    (h3 : s.file.dimSize? hkDim = some m)
    (h4 : alistGet? s.file.vars imageTimePath = some tv) :
    (l1aClose s).2.2 = none ∧
    (l1aClose s).1.isOpen = false ∧
    (alistGet? (l1aClose s).1.file.attrs covStartName).isSome ∧
    (alistGet? (l1aClose s).1.file.attrs covEndName).isSome ∧
    ((k, c) ∈ (l1aClose s).2.1 ↔
      ((k, c) ∈ s.dset_stored ∧
          (strStarts scienceGrp k || strStarts imgGrp k) = true ∧ 0 < c ∧ c ≠ nImg)
        ∨ ((k, c) ∈ s.dset_stored ∧ strStarts engGrp k = true ∧ 0 < c ∧ c ≠ m)) := by
  have hne : ¬nImg = 0 := Nat.pos_iff_ne_zero.mp h2
  have hstep : l1aClose s =
      ({ s with file := l1aClosedFile s.file tv nImg, isOpen := false },
        l1aCheckStored s true, none) := by
    simp [l1aClose, l1aClosedFile, hO, h1, hne, h3, h4]
  rw [hstep]
  refine ⟨rfl, rfl, ?_, ?_, ?_⟩
  · simp only [l1aClosedFile]
    exact isSome_alistGet?_alistUpsert
      (alistUpsert s.file.attrs covStartName (l1aCoverageMs (tv.readRow 0)))
      covStartName covEndName (l1aCoverageMs (tv.readRow (nImg - 1)))
      (by rw [alistGet?_alistUpsert_self]; rfl)
  · simp only [l1aClosedFile]
    rw [alistGet?_alistUpsert_self]; rfl
  · have hd1 : s.file.dimSzD numImagesDim = nImg := by
      rw [NcFile.dimSzD, h1]; rfl
    have hd2 : s.file.dimSzD hkDim = m := by rw [NcFile.dimSzD, h3]; rfl
    simp only [l1aCheckStored, offendersOf, hd1, hd2, if_true,
      List.mem_append, List.mem_filter, Bool.and_eq_true, decide_eq_true_eq]
    tauto

/-- Witness for C4 on a concrete product: one row of `detector_images` against
`number_of_images = 2` yields a warning line, yet the close succeeds and the
coverage attributes are present. -/
theorem C4_close_mismatch_warns_witness :
    (l1aClose c4State).2.2 = none ∧
    (l1aClose c4State).1.isOpen = false ∧
    (alistGet? (l1aClose c4State).1.file.attrs covStartName).isSome ∧
    (c4BadKey, 1) ∈ (l1aClose c4State).2.1 := by
  have h := C4_close_mismatch_warns c4State c4BadKey 1 2 0
    { dims := [numImagesDim], content := [0, 1] } rfl rfl (by norm_num) rfl rfl
  exact ⟨h.1, h.2.1, h.2.2.1, h.2.2.2.2.mpr (.inl (by decide))⟩

/-- C10 counterexample: on a product whose file *does* contain
`/engineering_data/DemHK_telemetry` (first dimension `hk_packets`, unlimited),
`fill_demhk` with one record raises `KeyError` and returns the state
*unchanged* — nothing is stored, because with the default start index the
`dset_stored[name]` lookup runs before the netCDF write. -/
theorem C10_fill_demhk_stores_nothing :
    fill_demhk c10State [5] = (c10State, some (LvErr.keyError demhkPath)) := by
  decide

/-- C10 as amended: `set_dset` on a name present in the file but absent from
the stored-length table always raises `KeyError`, in every dimension
configuration.  When the variable has no dimensions, a fixed (non-unlimited)
first dimension, or an unlimited first dimension written at an explicit
nonnegative start index, the data lands in the file before the error (the
write is not atomic); but on an unlimited first dimension with the default
start index the lookup of the start position raises first and the file is
untouched.  In particular `'/engineering_data/DemHK_telemetry'` is not in
`L1Aio.dset_stored`, so `fill_demhk` with non-empty data always raises
*without* storing the telemetry. -/
theorem C10_missing_table_key (s : Lv1State) (name : String) (value : NpValue)
    (i : ℤ) (v : NcVar) (d : String) (rows : List Row)
    (hO : s.isOpen = true)
    (hv : alistGet? s.file.vars name = some v)
    (hmiss : alistGet? s.dset_stored name = none) :
    (set_dset s name value i).2 = some (LvErr.keyError name) ∧
    (v.dims = [] →
      set_dset s name value i =
        ({ s with file := fileWithVar s.file name { v with content := rowsOf value } },
          some (.keyError name))) ∧
    (v.dims.head? = some d → s.file.isUnlimitedDim d = true → i < 0 →
      set_dset s name value i = (s, some (.keyError name))) ∧
    (v.dims.head? = some d → s.file.isUnlimitedDim d = true → 0 ≤ i →
      set_dset s name value i =
        ({ s with file := fileWithVar s.file name { v with content := spliceAt v.content i.toNat (rowsOf value) } },
          some (.keyError name))) ∧
    (v.dims.head? = some d → s.file.isUnlimitedDim d = false →
      set_dset s name value i =
        ({ s with file := fileWithVar s.file name { v with content := rowsOf value } },
          some (.keyError name))) ∧
    alistGet? l1aDsetStoredInit demhkPath = none ∧
    (name = demhkPath → v.dims.head? = some d → s.file.isUnlimitedDim d = true →
      rows ≠ [] →
      fill_demhk s rows = (s, some (.keyError demhkPath))) := by
  refine ⟨?_, ?_, ?_, ?_, ?_, by decide, ?_⟩
  · cases hdm : v.dims.head? with
    | none => simp [set_dset, hO, hv, hdm, bumpStored, hmiss]
    | some d0 =>
      cases hu : s.file.isUnlimitedDim d0 with
      | false => simp [set_dset, hO, hv, hdm, hu, bumpStored, hmiss]
      | true =>
        by_cases hi : i < 0
        · simp [set_dset, hO, hv, hdm, hu, hi, hmiss]
        · simp [set_dset, hO, hv, hdm, hu, hi, bumpStored, hmiss]
  · intro h0
    have hdm : v.dims.head? = none := by rw [h0]; rfl
    simp [set_dset, hO, hv, hdm, bumpStored, hmiss]
  · intro hd hu hi
    simp [set_dset, hO, hv, hd, hu, hi, hmiss]
  · intro hd hu hi
    have hnlt : ¬ i < 0 := not_lt.mpr hi
    simp [set_dset, hO, hv, hd, hu, hnlt, bumpStored, hmiss]
  · intro hd hu
    simp [set_dset, hO, hv, hd, hu, hmiss, bumpStored]
  · intro hname hd hu hrne
    subst hname
    have hlen : (rows.length == 0) = false := by
      cases rows with
      | nil => exact absurd rfl hrne
      | cons a l => rfl
    have hneg : ((-1 : ℤ) < 0) := by norm_num
    simp [fill_demhk, hlen, set_dset, hO, hv, hd, hu, hneg, hmiss]

/-- Witness for the amended C10 on the concrete product: the default-index
append raises with the state unchanged, the explicit-index write stores the
row and then raises, the DemHK path is missing from the class table, and
`fill_demhk` raises without storing. -/
theorem C10_missing_table_key_witness :
    set_dset c10State demhkPath (NpValue.scalar 7) (-1)
        = (c10State, some (LvErr.keyError demhkPath)) ∧
    set_dset c10State demhkPath (NpValue.array [8]) 0
        = ({ c10State with file := fileWithVar c10State.file demhkPath { c10Var with content := [8] } },
            some (LvErr.keyError demhkPath)) ∧
    alistGet? l1aDsetStoredInit demhkPath = none ∧
    fill_demhk c10State [5, 6] = (c10State, some (LvErr.keyError demhkPath)) := by
  have h1 := C10_missing_table_key c10State demhkPath (NpValue.scalar 7) (-1)
    c10Var hkDim [5, 6] rfl rfl (by decide)
  have h2 := C10_missing_table_key c10State demhkPath (NpValue.array [8]) 0
    c10Var hkDim [5, 6] rfl rfl (by decide)
  refine ⟨h1.2.2.1 rfl rfl (by norm_num), ?_, h1.2.2.2.2.2.1,
    h1.2.2.2.2.2.2 rfl rfl rfl (by simp)⟩
  have h4 := h2.2.2.2.1 rfl rfl (by norm_num)
  simpa [spliceAt, c10Var] using h4

/-- C8: the stored-length table is a class attribute shared between product
instances.  The first instance of the process starts at zero, writes one
`image_time` row and closes; a second instance created afterwards
(`append=False`) begins life with the stale counter 1, not 0. -/
theorem C8_second_instance_stale_counter :
    alistGet? c8First.dset_stored imageTimePath = some 0 ∧
    alistGet? c8Second.dset_stored imageTimePath = some 1 := by
  constructor <;> decide
